import Mathlib

/-
Verification of the organization mutation actions of
`src/starterkits/saas/src/server/actions/organization/mutations.ts`.

The embedding follows the source file operation by operation.  The ambient
collaborators (session resolver giving `user`, and `getOrganizations` giving
`currentOrg`) are threaded as explicit parameters `callerId` and `currentOrg`.
The persistence store is a record of three relations (`organizations`,
`membersToOrganizations`, `orgRequests`); each drizzle statement becomes a
pure function on it.  A thrown `Error` becomes `Except.error`; every throw in
the source happens before any write of the same call, so an error result
carries no mutated store.  Database-generated ids (`newOrgId`,
`newRequestId`) are passed as parameters.
-/

namespace Saas

/-- Membership role values used by the source (`role: "Admin"` comparisons and
the `{Admin, Member}` enum of the schema). -/
inductive Role where
  | Admin
  | Member
deriving DecidableEq

/-- A row of the `organizations` table: id, name, image URL, ownerId. -/
structure Organization where
  id : String
  name : String
  image : String
  ownerId : String
deriving DecidableEq

/-- A row of the `membersToOrganizations` table. -/
structure Membership where
  memberId : String
  organizationId : String
  role : Role
deriving DecidableEq

/-- A row of the `orgRequests` table: a pending application of `userId` to
join `organizationId`. -/
structure JoinRequest where
  id : String
  organizationId : String
  userId : String
deriving DecidableEq

/-- The persistence store: the three relations touched by the module. -/
structure Store where
  organizations : List Organization
  membersToOrganizations : List Membership
  orgRequests : List JoinRequest
deriving DecidableEq

/-- Error taxonomy of the module.  The source throws `new Error(msg, {cause})`
with three distinguishable shapes: validation failures carrying zod
field-level causes, authorization denials, and the missing-request case of
accept. -/
inductive OrgError where
  | validationError (causes : List String)
  | notAuthorized (msg : String)
  | notFound (msg : String)
deriving DecidableEq

/-- True exactly on a successful (`ok`) result. -/
def succeeded {α : Type} : Except OrgError α → Bool
  | .ok _ => true
  | .error _ => false

/-- Field-level causes produced by the zod refinement
`z.string().min(3, ...).max(50, ...)` on the organization name
(mutations.ts lines 25-28 and 68-71). -/
def nameLengthErrors (name : String) : List String :=
  (if name.length < 3 then ["Name must be at least 3 characters long"] else [])
    ++ (if 50 < name.length then ["Name must be at most 50 characters long"] else [])

/-- Field-level causes of the zod check `z.string().url({message: "Invalid
image URL"})`.  The URL parser itself is part of the external Validator
collaborator, so it is abstracted as the boolean `validUrl`. -/
def imageUrlErrors (validUrl : String → Bool) (image : String) : List String :=
  if validUrl image then [] else ["Invalid image URL"]

/-- The repeated drizzle query
`db.query.membersToOrganizations.findFirst(and(memberId = userId,
organizationId = orgId, role = "Admin"))` (mutations.ts lines 91-97 and its
four copies). -/
def findAdminMembership (s : Store) (userId orgId : String) : Option Membership :=
  s.membersToOrganizations.find? fun m =>
    m.memberId == userId && m.organizationId == orgId && m.role == Role.Admin

/-- The repeated authorization gate `currentOrg.ownerId === user.id ||
memToOrg` of mutations.ts lines 99, 252, 311, 370, 423. -/
def privileged (s : Store) (callerId : String) (currentOrg : Organization) : Bool :=
  currentOrg.ownerId == callerId || (findAdminMembership s callerId currentOrg.id).isSome

/-- `db.insert(organizations).values(...)`: append a row. -/
def insertOrganization (s : Store) (o : Organization) : Store :=
  { s with organizations := s.organizations ++ [o] }

/-- `db.insert(membersToOrganizations).values(...)`: append a row. -/
def insertMembership (s : Store) (m : Membership) : Store :=
  { s with membersToOrganizations := s.membersToOrganizations ++ [m] }

/-- Plain insert into `orgRequests`. -/
def insertOrgRequest (s : Store) (r : JoinRequest) : Store :=
  { s with orgRequests := s.orgRequests ++ [r] }

/-- `db.delete(orgRequests).where(eq(orgRequests.id, requestId))`
(mutations.ts lines 266-269 and 312-315): keep the rows whose id differs. -/
def deleteOrgRequestById (s : Store) (requestId : String) : Store :=
  { s with orgRequests := s.orgRequests.filter fun r => !(r.id == requestId) }

/-- Modelled from the spec: the `membersToOrganizations` schema declares the
default of the `role` column, and the schema file (`@/server/db/schema`) is
not part of this module.  The spec states that acceptance creates the
membership with default role `Member`, not `Admin`. -/
def defaultMembershipRole : Role := Role.Member

/-- `createOrgMutation` (mutations.ts lines 32-59): validate name and image,
then insert the organization row, then insert the owner membership row with
role `Admin`.  The two inserts are two separate statements with no
transaction around them. -/
def createOrgMutation (validUrl : String → Bool) (s : Store)
    (callerId newOrgId name image : String) :
    Except OrgError (Store × Organization) :=
  let causes := nameLengthErrors name ++ imageUrlErrors validUrl image
  if causes = [] then
    let org : Organization :=
      { id := newOrgId, name := name, image := image, ownerId := callerId }
    let s1 := insertOrganization s org
    let s2 := insertMembership s1
      { memberId := callerId, organizationId := newOrgId, role := Role.Admin }
    .ok (s2, org)
  else
    .error (.validationError causes)

/-- The store state reached by `createOrgMutation` after the `organizations`
insert (line 46-50) and before the `membersToOrganizations` insert (line
52-56): the state a concurrent reader observes between the two awaits, and
the final state when the second insert fails. -/
def createOrgIntermediate (s : Store) (callerId newOrgId name image : String) : Store :=
  insertOrganization s
    { id := newOrgId, name := name, image := image, ownerId := callerId }

/-- `updateOrgNameMutation` (mutations.ts lines 76-108): validate the name,
then gate on owner-or-admin, then update the name of the current
organization row. -/
def updateOrgNameMutation (s : Store) (callerId : String)
    (currentOrg : Organization) (name : String) : Except OrgError Store :=
  let causes := nameLengthErrors name
  if causes = [] then
    if privileged s callerId currentOrg then
      .ok { s with organizations := s.organizations.map fun o =>
              if o.id == currentOrg.id then { o with name := name } else o }
    else
      .error (.notAuthorized "You are not an admin of this organization")
  else
    .error (.validationError causes)

/-- `updateOrgImageMutation` (mutations.ts lines 122-154): validate the image
URL, then gate on owner-or-admin, then update the image of the current
organization row. -/
def updateOrgImageMutation (validUrl : String → Bool) (s : Store)
    (callerId : String) (currentOrg : Organization) (image : String) :
    Except OrgError Store :=
  let causes := imageUrlErrors validUrl image
  if causes = [] then
    if privileged s callerId currentOrg then
      .ok { s with organizations := s.organizations.map fun o =>
              if o.id == currentOrg.id then { o with image := image } else o }
    else
      .error (.notAuthorized "You are not an admin of this organization")
  else
    .error (.validationError causes)

/-- `deleteOrgMutation` (mutations.ts lines 161-174): only the owner may
delete; the admin-membership query is not even consulted. -/
def deleteOrgMutation (s : Store) (callerId : String)
    (currentOrg : Organization) : Except OrgError Store :=
  if currentOrg.ownerId == callerId then
    .ok { s with organizations := s.organizations.filter fun o =>
            !(o.id == currentOrg.id) }
  else
    .error (.notAuthorized "You are not the owner of this organization")

/-- The predicate of the `onConflictDoNothing` where-clause of
`sendOrgRequestMutation`: same organization and same user. -/
def pendingReqFor (orgId userId : String) (r : JoinRequest) : Bool :=
  r.organizationId == orgId && r.userId == userId

/-- `sendOrgRequestMutation` (mutations.ts lines 187-214): insert a request
row with `onConflictDoNothing` on the (organizationId, userId) pair.
Modelled from the spec for the conflict target: the uniqueness constraint on
the pair lives in the schema file (`@/server/db/schema`), not in this module;
the spec states that a duplicate submission for the pair is a silent no-op.
The parse of `createInsertSchema(orgRequests)` on two plain strings always
succeeds, so no validation branch arises. -/
def sendOrgRequestMutation (s : Store) (callerId newRequestId orgId : String) :
    Except OrgError Store :=
  if (s.orgRequests.find? (pendingReqFor orgId callerId)).isSome then
    .ok s
  else
    .ok (insertOrgRequest s
      { id := newRequestId, organizationId := orgId, userId := callerId })

/-- `acceptOrgRequestMutation` (mutations.ts lines 227-273): gate on
owner-or-admin of the caller's current organization, look the request up by
id (NotFound when absent), then insert a membership row for the applicant in
`currentOrg.id` (role left to the schema default) and delete the request
row.  The zod schema `{requestId: z.string()}` always accepts a string, so
no validation branch arises. -/
def acceptOrgRequestMutation (s : Store) (callerId : String)
    (currentOrg : Organization) (requestId : String) : Except OrgError Store :=
  if privileged s callerId currentOrg then
    match s.orgRequests.find? (fun r => r.id == requestId) with
    | none => .error (.notFound "Request not found")
    | some request =>
      let s1 := insertMembership s
        { memberId := request.userId, organizationId := currentOrg.id,
          role := defaultMembershipRole }
      let s2 := deleteOrgRequestById s1 requestId
      .ok s2
  else
    .error (.notAuthorized "You are not an admin of this organization")

/-- The store state reached by `acceptOrgRequestMutation` after the
membership insert (lines 261-264) and before the request deletion (lines
266-269), defined when the request exists: the state a concurrent reader
observes between the two awaits, and the final state when the deletion
fails. -/
def acceptOrgRequestAfterInsert (s : Store) (currentOrg : Organization)
    (requestId : String) : Option Store :=
  (s.orgRequests.find? (fun r => r.id == requestId)).map fun request =>
    insertMembership s
      { memberId := request.userId, organizationId := currentOrg.id,
        role := defaultMembershipRole }

/-- `declineOrgRequestMutation` (mutations.ts lines 286-319): gate on
owner-or-admin, then delete the request row by id; no existence check, no
membership write. -/
def declineOrgRequestMutation (s : Store) (callerId : String)
    (currentOrg : Organization) (requestId : String) : Except OrgError Store :=
  if privileged s callerId currentOrg then
    .ok (deleteOrgRequestById s requestId)
  else
    .error (.notAuthorized "You are not an admin of this organization")

/-- `updateMemberRoleMutation` (mutations.ts lines 336-387): escalation to
`Admin` demands the owner strictly (lines 363-368, checked first); otherwise
the usual owner-or-admin gate guards the role update of the
(memberId, currentOrg.id) membership row. -/
def updateMemberRoleMutation (s : Store) (callerId : String)
    (currentOrg : Organization) (memberId : String) (role : Role) :
    Except OrgError Store :=
  if role == Role.Admin && !(currentOrg.ownerId == callerId) then
    .error (.notAuthorized "You are not the owner of this organization")
  else if privileged s callerId currentOrg then
    .ok { s with membersToOrganizations := s.membersToOrganizations.map fun m =>
            if m.memberId == memberId && m.organizationId == currentOrg.id then
              { m with role := role }
            else m }
  else
    .error (.notAuthorized "You are not an admin of this organization")

/-- `removeUserMutation` (mutations.ts lines 400-439): gate on
owner-or-admin, then delete the (userId, currentOrg.id) membership row. -/
def removeUserMutation (s : Store) (callerId : String)
    (currentOrg : Organization) (userId : String) : Except OrgError Store :=
  if privileged s callerId currentOrg then
    .ok { s with membersToOrganizations := s.membersToOrganizations.filter fun m =>
            !(m.memberId == userId && m.organizationId == currentOrg.id) }
  else
    .error (.notAuthorized "You are not an admin of this organization")

/-- Number of `orgRequests` rows for one (organization, user) pair. -/
def countRequestsFor (s : Store) (orgId userId : String) : Nat :=
  (s.orgRequests.filter (pendingReqFor orgId userId)).length

/-- Number of `membersToOrganizations` rows for one
(organization, member) pair. -/
def countMembershipsFor (s : Store) (orgId memberId : String) : Nat :=
  (s.membersToOrganizations.filter fun m =>
    m.memberId == memberId && m.organizationId == orgId).length

/-- A sample organization owned by `owner1`, used to instantiate theorems. -/
def orgA : Organization :=
  { id := "A", name := "Acme", image := "https://img.example/a.png",
    ownerId := "owner1" }

/-- A second sample organization owned by `owner2`. -/
def orgB : Organization :=
  { id := "B", name := "Beta", image := "https://img.example/b.png",
    ownerId := "owner2" }

/-- A sample store: organization A with its owner's admin row, a non-owner
admin `adminA`, an ordinary member `bob`, and a pending request of `joe`. -/
def storeA : Store :=
  { organizations := [orgA],
    membersToOrganizations :=
      [ { memberId := "owner1", organizationId := "A", role := Role.Admin },
        { memberId := "adminA", organizationId := "A", role := Role.Admin },
        { memberId := "bob", organizationId := "A", role := Role.Member } ],
    orgRequests := [ { id := "r1", organizationId := "A", userId := "joe" } ] }

/-- A two-organization store whose only pending request is addressed to
organization B, while the privileged rows all belong to organization A. -/
def storeAB : Store :=
  { organizations := [orgA, orgB],
    membersToOrganizations :=
      [ { memberId := "owner1", organizationId := "A", role := Role.Admin },
        { memberId := "adminA", organizationId := "A", role := Role.Admin } ],
    orgRequests := [ { id := "rB", organizationId := "B", userId := "joe" } ] }

theorem privileged_of_owner (s : Store) (callerId : String)
    (currentOrg : Organization) (h : currentOrg.ownerId = callerId) :
    privileged s callerId currentOrg = true := by
  simp [privileged, h]

theorem privileged_of_admin (s : Store) (callerId : String)
    (currentOrg : Organization)
    (h : (findAdminMembership s callerId currentOrg.id).isSome = true) :
    privileged s callerId currentOrg = true := by
  simp [privileged, h]

theorem privileged_eq_false_of (s : Store) (callerId : String)
    (currentOrg : Organization) (h1 : currentOrg.ownerId ≠ callerId)
    (h2 : findAdminMembership s callerId currentOrg.id = none) :
    privileged s callerId currentOrg = false := by
  simp [privileged, h1, h2]

/-- Claim C1: only the owner may delete the organization or promote a member
to Admin.  Every non-owner caller — including one holding an Admin membership
row, since the store `s` is arbitrary — receives NotAuthorized from both
operations, and the error result carries no store mutation (every throw in
the source precedes every write); the owner passes both. -/
theorem C1_owner_strict_delete_and_promote (s : Store) (callerId : String)
    (currentOrg : Organization) (memberId : String) :
    (currentOrg.ownerId ≠ callerId →
      deleteOrgMutation s callerId currentOrg
          = .error (.notAuthorized "You are not the owner of this organization") ∧
      updateMemberRoleMutation s callerId currentOrg memberId Role.Admin
          = .error (.notAuthorized "You are not the owner of this organization")) ∧
    (currentOrg.ownerId = callerId →
      succeeded (deleteOrgMutation s callerId currentOrg) = true ∧
      succeeded (updateMemberRoleMutation s callerId currentOrg memberId Role.Admin)
          = true) := by
  constructor
  · intro h
    constructor
    · simp [deleteOrgMutation, h]
    · simp [updateMemberRoleMutation, h]
  · intro h
    constructor
    · simp [deleteOrgMutation, h, succeeded]
    · simp [updateMemberRoleMutation, h, privileged, succeeded]

theorem C1_owner_strict_delete_and_promote_witness :
    deleteOrgMutation storeA "adminA" orgA
        = .error (.notAuthorized "You are not the owner of this organization") ∧
    updateMemberRoleMutation storeA "adminA" orgA "bob" Role.Admin
        = .error (.notAuthorized "You are not the owner of this organization") ∧
    succeeded (deleteOrgMutation storeA "owner1" orgA) = true ∧
    succeeded (updateMemberRoleMutation storeA "owner1" orgA "bob" Role.Admin)
        = true := by
  have hA := C1_owner_strict_delete_and_promote storeA "adminA" orgA "bob"
  have hO := C1_owner_strict_delete_and_promote storeA "owner1" orgA "bob"
  have h1 := hA.1 (by decide)
  have h2 := hO.2 (by decide)
  exact ⟨h1.1, h1.2, h2.1, h2.2⟩

/-- Claim C2: a caller who is neither the owner nor the holder of an Admin
membership row of the current organization receives NotAuthorized (and hence
zero store mutation) from rename, re-image, role-change-to-Member, member
removal and decline; conversely any caller with isOwner or isAdmin passes
the authorization gate of all five operations. -/
theorem C2_privileged_gate (validUrl : String → Bool) (s : Store)
    (callerId : String) (currentOrg : Organization)
    (name image memberId userId requestId : String)
    (hname : nameLengthErrors name = [])
    (himage : imageUrlErrors validUrl image = []) :
    (currentOrg.ownerId ≠ callerId ∧
        findAdminMembership s callerId currentOrg.id = none →
      updateOrgNameMutation s callerId currentOrg name
          = .error (.notAuthorized "You are not an admin of this organization") ∧
      updateOrgImageMutation validUrl s callerId currentOrg image
          = .error (.notAuthorized "You are not an admin of this organization") ∧
      updateMemberRoleMutation s callerId currentOrg memberId Role.Member
          = .error (.notAuthorized "You are not an admin of this organization") ∧
      removeUserMutation s callerId currentOrg userId
          = .error (.notAuthorized "You are not an admin of this organization") ∧
      declineOrgRequestMutation s callerId currentOrg requestId
          = .error (.notAuthorized "You are not an admin of this organization")) ∧
    (currentOrg.ownerId = callerId ∨
        (findAdminMembership s callerId currentOrg.id).isSome = true →
      succeeded (updateOrgNameMutation s callerId currentOrg name) = true ∧
      succeeded (updateOrgImageMutation validUrl s callerId currentOrg image) = true ∧
      succeeded (updateMemberRoleMutation s callerId currentOrg memberId Role.Member)
          = true ∧
      succeeded (removeUserMutation s callerId currentOrg userId) = true ∧
      succeeded (declineOrgRequestMutation s callerId currentOrg requestId) = true) := by
  constructor
  · rintro ⟨h1, h2⟩
    have hp : privileged s callerId currentOrg = false :=
      privileged_eq_false_of s callerId currentOrg h1 h2
    refine ⟨?_, ?_, ?_, ?_, ?_⟩
    · simp [updateOrgNameMutation, hname, hp]
    · simp [updateOrgImageMutation, himage, hp]
    · simp [updateMemberRoleMutation, hp]
    · simp [removeUserMutation, hp]
    · simp [declineOrgRequestMutation, hp]
  · intro h
    have hp : privileged s callerId currentOrg = true := by
      rcases h with h | h
      · exact privileged_of_owner s callerId currentOrg h
      · exact privileged_of_admin s callerId currentOrg h
    refine ⟨?_, ?_, ?_, ?_, ?_⟩
    · simp [updateOrgNameMutation, hname, hp, succeeded]
    · simp [updateOrgImageMutation, himage, hp, succeeded]
    · rcases hrole : (Role.Member == Role.Admin && !(currentOrg.ownerId == callerId)) with _ | _
      · simp [updateMemberRoleMutation, hrole, hp, succeeded]
      · simp at hrole
    · simp [removeUserMutation, hp, succeeded]
    · simp [declineOrgRequestMutation, hp, succeeded]

theorem C2_privileged_gate_witness :
    updateOrgNameMutation storeA "bob" orgA "Acme Rocks"
        = .error (.notAuthorized "You are not an admin of this organization") ∧
    declineOrgRequestMutation storeA "bob" orgA "r1"
        = .error (.notAuthorized "You are not an admin of this organization") ∧
    succeeded (updateOrgNameMutation storeA "adminA" orgA "Acme Rocks") = true ∧
    succeeded (removeUserMutation storeA "adminA" orgA "bob") = true := by
  have hB := C2_privileged_gate (fun _ => true) storeA "bob" orgA
    "Acme Rocks" "https://img.example/c.png" "bob" "bob" "r1" (by decide) (by decide)
  have hAd := C2_privileged_gate (fun _ => true) storeA "adminA" orgA
    "Acme Rocks" "https://img.example/c.png" "bob" "bob" "r1" (by decide) (by decide)
  have h1 := hB.1 ⟨by decide, by decide⟩
  have h2 := hAd.2 (Or.inr (by decide))
  exact ⟨h1.1, h1.2.2.2.2, h2.1, h2.2.2.2.1⟩

/-- Claim C3, evaluated at a concrete creation: the successful run of
`createOrgMutation` factors through exactly the intermediate state
`createOrgIntermediate` (the state after the `organizations` insert, which
is final when the `membersToOrganizations` insert fails), and in that state
the organization row exists while the owner has no membership row — the
claimed atomic unit does not hold in the code. -/
theorem C3_create_partial_state :
    createOrgMutation (fun _ => true) ⟨[], [], []⟩ "u1" "org1" "Acme"
        "https://img.example/a.png"
      = .ok (insertMembership
          (createOrgIntermediate ⟨[], [], []⟩ "u1" "org1" "Acme"
            "https://img.example/a.png")
          { memberId := "u1", organizationId := "org1", role := Role.Admin },
        { id := "org1", name := "Acme", image := "https://img.example/a.png",
          ownerId := "u1" }) ∧
    (createOrgIntermediate ⟨[], [], []⟩ "u1" "org1" "Acme"
        "https://img.example/a.png").organizations
      = [{ id := "org1", name := "Acme", image := "https://img.example/a.png",
           ownerId := "u1" }] ∧
    countMembershipsFor
        (createOrgIntermediate ⟨[], [], []⟩ "u1" "org1" "Acme"
          "https://img.example/a.png") "org1" "u1" = 0 :=
  ⟨rfl, rfl, rfl⟩

/-- Claim C4, evaluated at a concrete acceptance: the successful run of
`acceptOrgRequestMutation` factors through the intermediate state
`acceptOrgRequestAfterInsert` (the state after the membership insert, which
is final when the request deletion fails); in that state the applicant's
membership row exists while the request row is still live, so the two
effects do not occur together.  The final state of the full run does carry
both effects: exactly one Member membership for the applicant and no
request row. -/
theorem C4_accept_partial_state :
    acceptOrgRequestAfterInsert storeA orgA "r1"
      = some (insertMembership storeA
          { memberId := "joe", organizationId := "A", role := Role.Member }) ∧
    ({ memberId := "joe", organizationId := "A", role := Role.Member } : Membership)
      ∈ (insertMembership storeA
          { memberId := "joe", organizationId := "A",
            role := Role.Member }).membersToOrganizations ∧
    ({ id := "r1", organizationId := "A", userId := "joe" } : JoinRequest)
      ∈ (insertMembership storeA
          { memberId := "joe", organizationId := "A",
            role := Role.Member }).orgRequests ∧
    acceptOrgRequestMutation storeA "owner1" orgA "r1"
      = .ok (deleteOrgRequestById
          (insertMembership storeA
            { memberId := "joe", organizationId := "A", role := Role.Member })
          "r1") ∧
    countMembershipsFor
        (deleteOrgRequestById
          (insertMembership storeA
            { memberId := "joe", organizationId := "A", role := Role.Member })
          "r1") "A" "joe" = 1 ∧
    (deleteOrgRequestById
        (insertMembership storeA
          { memberId := "joe", organizationId := "A", role := Role.Member })
        "r1").orgRequests = [] :=
  ⟨rfl, by decide, by decide, rfl, rfl, rfl⟩

/-- Claim C5: a privileged caller accepting a requestId for which no
JoinRequest row exists gets NotFound; the error is raised before the
membership insert and the request deletion, so nothing is created or
deleted. -/
theorem C5_accept_missing_request (s : Store) (callerId requestId : String)
    (currentOrg : Organization)
    (hpriv : privileged s callerId currentOrg = true)
    (habs : s.orgRequests.find? (fun r => r.id == requestId) = none) :
    acceptOrgRequestMutation s callerId currentOrg requestId
      = .error (.notFound "Request not found") := by
  simp [acceptOrgRequestMutation, hpriv, habs]

theorem C5_accept_missing_request_witness :
    acceptOrgRequestMutation storeA "owner1" orgA "nope"
      = .error (.notFound "Request not found") :=
  C5_accept_missing_request storeA "owner1" "nope" orgA (by decide) (by decide)

/-- Claim C6: submitting a join request twice in succession for the same
(organization, caller) pair succeeds both times and leaves exactly one
request row for that pair; the hypothesis is the store invariant (at most
one row per pair) that the schema-level uniqueness constraint maintains. -/
theorem C6_submit_idempotent (s : Store) (callerId orgId rid1 rid2 : String)
    (hinv : countRequestsFor s orgId callerId ≤ 1) :
    ∃ s1 s2,
      sendOrgRequestMutation s callerId rid1 orgId = .ok s1 ∧
      sendOrgRequestMutation s1 callerId rid2 orgId = .ok s2 ∧
      countRequestsFor s2 orgId callerId = 1 := by
  cases hfind : s.orgRequests.find? (pendingReqFor orgId callerId) with
  | some r =>
    refine ⟨s, s, ?_, ?_, ?_⟩
    · simp [sendOrgRequestMutation, hfind]
    · simp [sendOrgRequestMutation, hfind]
    · have hmem : r ∈ s.orgRequests.filter (pendingReqFor orgId callerId) :=
        List.mem_filter.mpr
          ⟨List.mem_of_find?_eq_some hfind, List.find?_some hfind⟩
      have h1 : 1 ≤ countRequestsFor s orgId callerId := by
        have hpos := List.length_pos.mpr (List.ne_nil_of_mem hmem)
        simpa [countRequestsFor] using hpos
      exact Nat.le_antisymm hinv h1
  | none =>
    have hfilter : s.orgRequests.filter (pendingReqFor orgId callerId) = [] :=
      List.filter_eq_nil_iff.mpr (List.find?_eq_none.mp hfind)
    have hpnew : pendingReqFor orgId callerId
        { id := rid1, organizationId := orgId, userId := callerId } = true := by
      simp [pendingReqFor]
    have hmemnew : ({ id := rid1, organizationId := orgId, userId := callerId }
        : JoinRequest) ∈ (insertOrgRequest s
          { id := rid1, organizationId := orgId,
            userId := callerId }).orgRequests := by
      simp [insertOrgRequest]
    have hfind2 : ((insertOrgRequest s
        { id := rid1, organizationId := orgId, userId := callerId }).orgRequests.find?
          (pendingReqFor orgId callerId)).isSome = true := by
      refine Option.isSome_iff_ne_none.mpr ?_
      intro hnone
      exact absurd hpnew (List.find?_eq_none.mp hnone _ hmemnew)
    refine ⟨insertOrgRequest s
        { id := rid1, organizationId := orgId, userId := callerId },
      insertOrgRequest s
        { id := rid1, organizationId := orgId, userId := callerId }, ?_, ?_, ?_⟩
    · simp [sendOrgRequestMutation, hfind]
    · simp [sendOrgRequestMutation, hfind2]
    · simp [countRequestsFor, insertOrgRequest, List.filter_append, hfilter, hpnew]

theorem C6_submit_idempotent_witness :
    ∃ s1 s2,
      sendOrgRequestMutation ⟨[], [], []⟩ "joe" "rid1" "A" = .ok s1 ∧
      sendOrgRequestMutation s1 "joe" "rid2" "A" = .ok s2 ∧
      countRequestsFor s2 "A" "joe" = 1 :=
  C6_submit_idempotent ⟨[], [], []⟩ "joe" "A" "rid1" "rid2" (by decide)

/-- Claim C7: a privileged decline deletes the named request row when
present, never creates a membership row, leaves the other two relations
untouched, and succeeds even when no row with that id exists (the delete is
a no-op rather than NotFound, unlike Accept). -/
theorem C7_decline_deletes_only (s : Store) (callerId requestId : String)
    (currentOrg : Organization)
    (hpriv : privileged s callerId currentOrg = true) :
    ∃ s2, declineOrgRequestMutation s callerId currentOrg requestId = .ok s2 ∧
      s2.orgRequests = s.orgRequests.filter (fun r => !(r.id == requestId)) ∧
      (∀ r ∈ s2.orgRequests, ¬ r.id = requestId) ∧
      s2.membersToOrganizations = s.membersToOrganizations ∧
      s2.organizations = s.organizations := by
  refine ⟨deleteOrgRequestById s requestId, ?_, rfl, ?_, rfl, rfl⟩
  · simp [declineOrgRequestMutation, hpriv]
  · intro r hr
    have hkeep := (List.mem_filter.mp hr).2
    simpa using hkeep

theorem C7_decline_deletes_only_witness :
    ∃ s2, declineOrgRequestMutation storeA "adminA" orgA "nope" = .ok s2 ∧
      s2.orgRequests = storeA.orgRequests.filter (fun r => !(r.id == "nope")) ∧
      (∀ r ∈ s2.orgRequests, ¬ r.id = "nope") ∧
      s2.membersToOrganizations = storeA.membersToOrganizations ∧
      s2.organizations = storeA.organizations :=
  C7_decline_deletes_only storeA "adminA" "nope" orgA (by decide)

/-- Claim C8: a name shorter than 3 or longer than 50 characters makes both
`createOrgMutation` and `updateOrgNameMutation` fail with a ValidationError
carrying nonempty field-level causes, before any write. -/
theorem C8_name_length_validation (validUrl : String → Bool) (s : Store)
    (callerId newOrgId name image : String) (currentOrg : Organization)
    (h : name.length < 3 ∨ 50 < name.length) :
    nameLengthErrors name ≠ [] ∧
    (∃ causes, causes ≠ [] ∧
      createOrgMutation validUrl s callerId newOrgId name image
        = .error (.validationError causes)) ∧
    updateOrgNameMutation s callerId currentOrg name
      = .error (.validationError (nameLengthErrors name)) := by
  have hne : nameLengthErrors name ≠ [] := by
    rcases h with h | h
    · simp [nameLengthErrors, h]
    · have h3 : ¬ name.length < 3 := by omega
      simp [nameLengthErrors, h, h3]
  have hcne : nameLengthErrors name ++ imageUrlErrors validUrl image ≠ [] := by
    intro hc
    exact hne (List.append_eq_nil.mp hc).1
  refine ⟨hne,
    ⟨nameLengthErrors name ++ imageUrlErrors validUrl image, hcne, ?_⟩, ?_⟩
  · simp [createOrgMutation, hcne]
  · simp [updateOrgNameMutation, hne]

theorem C8_name_length_validation_witness :
    nameLengthErrors "ab" ≠ [] ∧
    (∃ causes, causes ≠ [] ∧
      createOrgMutation (fun _ => true) storeA "owner1" "o9" "ab"
          "https://img.example/x.png"
        = .error (.validationError causes)) ∧
    updateOrgNameMutation storeA "owner1" orgA "ab"
      = .error (.validationError (nameLengthErrors "ab")) :=
  C8_name_length_validation (fun _ => true) storeA "owner1" "o9" "ab"
    "https://img.example/x.png" orgA (Or.inl (by decide))

/-- Claim C9: a successful acceptance always appends a membership row whose
organizationId is the caller's current organization id (`currentOrg.id`),
not the organizationId stored on the JoinRequest, and deletes the request
row by id — so accepting a request addressed to another organization makes
the applicant a member of the caller's organization while the other
organization's request is deleted. -/
theorem C9_accept_uses_current_org (s : Store) (callerId requestId : String)
    (currentOrg : Organization) (request : JoinRequest)
    (hpriv : privileged s callerId currentOrg = true)
    (hfind : s.orgRequests.find? (fun r => r.id == requestId) = some request) :
    ∃ s2, acceptOrgRequestMutation s callerId currentOrg requestId = .ok s2 ∧
      s2.membersToOrganizations = s.membersToOrganizations
        ++ [{ memberId := request.userId, organizationId := currentOrg.id,
              role := defaultMembershipRole }] ∧
      s2.orgRequests = s.orgRequests.filter (fun r => !(r.id == requestId)) ∧
      s2.organizations = s.organizations := by
  refine ⟨deleteOrgRequestById
      (insertMembership s
        { memberId := request.userId, organizationId := currentOrg.id,
          role := defaultMembershipRole }) requestId, ?_, rfl, rfl, rfl⟩
  simp [acceptOrgRequestMutation, hpriv, hfind]

theorem C9_accept_uses_current_org_witness :
    ∃ s2, acceptOrgRequestMutation storeAB "owner1" orgA "rB" = .ok s2 ∧
      s2.membersToOrganizations = storeAB.membersToOrganizations
        ++ [{ memberId := "joe", organizationId := "A", role := Role.Member }] ∧
      s2.orgRequests = storeAB.orgRequests.filter (fun r => !(r.id == "rB")) ∧
      s2.organizations = storeAB.organizations :=
  C9_accept_uses_current_org storeAB "owner1" "rB" orgA
    { id := "rB", organizationId := "B", userId := "joe" } (by decide) (by decide)

/-- Claim C10: decline matches the request row by id alone, with no
constraint tying the row's organizationId to the caller's current
organization: a caller privileged in organization A successfully deletes a
pending request addressed to any organization B. -/
theorem C10_decline_ignores_request_org (s : Store) (callerId : String)
    (currentOrg : Organization) (req : JoinRequest)
    (hpriv : privileged s callerId currentOrg = true)
    (_hmem : req ∈ s.orgRequests) :
    ∃ s2, declineOrgRequestMutation s callerId currentOrg req.id = .ok s2 ∧
      req ∉ s2.orgRequests := by
  refine ⟨deleteOrgRequestById s req.id, ?_, ?_⟩
  · simp [declineOrgRequestMutation, hpriv]
  · intro hr
    have hkeep := (List.mem_filter.mp hr).2
    simp at hkeep

theorem C10_decline_ignores_request_org_witness :
    ∃ s2, declineOrgRequestMutation storeAB "owner1" orgA "rB" = .ok s2 ∧
      ({ id := "rB", organizationId := "B", userId := "joe" } : JoinRequest)
        ∉ s2.orgRequests :=
  C10_decline_ignores_request_org storeAB "owner1" orgA
    { id := "rB", organizationId := "B", userId := "joe" } (by decide) (by decide)

end Saas
